import Mathlib

/-!
# TermiKanban — verification of the board data model, history engine and event loop

Shallow embedding of `src/main.py` (the curses Adapter and event loop) together
with the `KanbanBoard` operations it calls.  The `kanban_board` module itself is
not part of the repository snapshot, so its operations (`add_column`,
`add_card`, `save`, `load`) are modelled from the specification; everything
else is translated directly from `main.py`.

Python lists are modelled as Lean `List`s; in-place mutation becomes functional
update; `copy.deepcopy` on a value-modelled board is the identity; Python
exceptions (`IndexError` from out-of-range list indexing/`pop`, load failures)
become `Except String`.
-/

namespace TermiKanban

/-- A card: `title`, `description`, `priority` (1=Low, 2=Med, 3=High). -/
structure Card where
  title : String
  description : String
  priority : Nat
  deriving Repr, DecidableEq

/-- A column: a display `name` and its cards in insertion order. -/
structure Column where
  name : String
  cards : List Card
  deriving Repr, DecidableEq

/-- The board: an ordered list of columns. -/
structure KanbanBoard where
  columns : List Column
  deriving Repr, DecidableEq

/-- Modelled from the spec: `KanbanBoard.add_column(name)` from the missing
`kanban_board` module "appends a new empty Column" to the board. -/
def KanbanBoard.add_column (b : KanbanBoard) (nm : String) : KanbanBoard :=
  { columns := b.columns ++ [{ name := nm, cards := [] }] }

/-- Modelled from the spec: `KanbanBoard.add_card(column_index, title,
description, priority)` from the missing `kanban_board` module "fails with
OutOfRange if `column_index` is not a valid column index; otherwise appends
the Card". -/
def KanbanBoard.add_card (b : KanbanBoard) (ci : Nat) (t d : String) (p : Nat) :
    Except String KanbanBoard :=
  match b.columns.get? ci with
  | none => .error "OutOfRange"
  | some col =>
      .ok { columns := b.columns.set ci { col with cards := col.cards ++ [⟨t, d, p⟩] } }

/-! ## Persistence codec

`KanbanBoard.save`/`KanbanBoard.load` live in the missing `kanban_board`
module.  The spec fixes the contract, not the encoding: the file holds an
ordered list of columns, each with a name and an ordered list of cards, each
card a title, a description and a priority restricted to {1,2,3} on load.
We model the file contents as a structured value. -/

/-- A structured on-disk value (encoding is an implementation choice). -/
inductive FileVal where
  | str : String → FileVal
  | num : Nat → FileVal
  | arr : List FileVal → FileVal
  deriving Repr

/-- Modelled from the spec: serialization of one card (title, description,
priority) by the missing `kanban_board.save`. -/
def saveCard (c : Card) : FileVal :=
  .arr [.str c.title, .str c.description, .num c.priority]

/-- Modelled from the spec: serialization of one column (name, cards in
insertion order) by the missing `kanban_board.save`. -/
def saveColumn (col : Column) : FileVal :=
  .arr [.str col.name, .arr (col.cards.map saveCard)]

/-- Modelled from the spec: `save(board, path)` "serializes the full Board
(columns, each column's name and cards in insertion order, each card's
title/description/priority)". -/
def KanbanBoard.save (b : KanbanBoard) : FileVal :=
  .arr (b.columns.map saveColumn)

/-- Modelled from the spec: deserialization of one card; "fails with a
FormatError if ... structurally invalid (missing required fields, priority
out of {1,2,3})". -/
def loadCard : FileVal → Except String Card
  | .arr [.str t, .str d, .num p] =>
      if p = 1 ∨ p = 2 ∨ p = 3 then .ok ⟨t, d, p⟩
      else .error "FormatError: priority out of range"
  | _ => .error "FormatError: malformed card"

/-- Modelled from the spec: deserialization of a card list, in stored order. -/
def loadCards : List FileVal → Except String (List Card)
  | [] => .ok []
  | v :: vs =>
      match loadCard v with
      | .error e => .error e
      | .ok c =>
          match loadCards vs with
          | .error e => .error e
          | .ok cs => .ok (c :: cs)

/-- Modelled from the spec: deserialization of one column. -/
def loadColumn : FileVal → Except String Column
  | .arr [.str nm, .arr cs] =>
      match loadCards cs with
      | .error e => .error e
      | .ok cards => .ok { name := nm, cards := cards }
  | _ => .error "FormatError: malformed column"

/-- Modelled from the spec: deserialization of a column list, in stored order. -/
def loadColumns : List FileVal → Except String (List Column)
  | [] => .ok []
  | v :: vs =>
      match loadColumn v with
      | .error e => .error e
      | .ok col =>
          match loadColumns vs with
          | .error e => .error e
          | .ok cols => .ok (col :: cols)

/-- Modelled from the spec: `load(path)` "deserializes, reconstructing columns
and cards in the exact order stored; fails with a FormatError if the file is
missing, unreadable, or structurally invalid". -/
def KanbanBoard.load : FileVal → Except String KanbanBoard
  | .arr cols =>
      match loadColumns cols with
      | .error e => .error e
      | .ok cs => .ok { columns := cs }
  | _ => .error "FormatError: malformed board"

/-- Every priority stored in the board is one of the three legal values
(Low=1, Med=2, High=3) — the data-model invariant of the spec. -/
def boardPrioritiesValid (b : KanbanBoard) : Prop :=
  ∀ col ∈ b.columns, ∀ c ∈ col.cards, c.priority = 1 ∨ c.priority = 2 ∨ c.priority = 3

instance (b : KanbanBoard) : Decidable (boardPrioritiesValid b) := by
  unfold boardPrioritiesValid; infer_instance

/-! ## The Adapter state and the main event loop (`main.py`)

The loop's mutable locals are `board`, `undo_stack`, `redo_stack`,
`selected_col`, `selected_card`.  Python's `list.append`/`list.pop()` operate
at the end of the list; we keep the most recent snapshot at the *head* of the
Lean list — a pure order reversal that preserves the LIFO discipline. -/

/-- The event loop's mutable state (main.py:266-268, 324-326). -/
structure AppState where
  board : KanbanBoard
  undo_stack : List KanbanBoard
  redo_stack : List KanbanBoard
  selected_col : Nat
  selected_card : Nat
  deriving Repr, DecidableEq

/-- The keys the main loop dispatches on (main.py:354-461). -/
inductive Key where
  | KeyQ | KeyRight | KeyLeft | KeyDown | KeyUp
  | KeyM | KeyB | KeyD | KeyA | KeyE
  | KeyS | KeyO | KeyC | KeyLBracket | KeyRBracket
  | KeyZ | KeyX | KeyP | KeyH
  deriving Repr, DecidableEq

/-- The values the blocking prompts (`get_input`) and the file picker plus
`KanbanBoard.load` would return during one loop iteration.  `open_result` is
`none` when the picker was cancelled, otherwise the outcome of
`board.load(file_path)` on the chosen file. -/
structure Input where
  title : String
  description : String
  priority_str : String
  new_title : String
  new_description : String
  col_name : String
  open_result : Option (Except String KanbanBoard)
  deriving Repr

/-- main.py:345-347: `undo_stack.append(copy.deepcopy(board)); redo_stack.clear()`. -/
def snapshotState (s : AppState) : AppState :=
  { s with undo_stack := s.board :: s.undo_stack, redo_stack := [] }

/-- main.py:446-449: if `undo_stack` is nonempty, push a deep copy of the
current board onto `redo_stack` and pop the most recent undo entry. -/
def undoState (s : AppState) : AppState :=
  match s.undo_stack with
  | [] => s
  | prev :: rest =>
      { s with redo_stack := s.board :: s.redo_stack, board := prev, undo_stack := rest }

/-- main.py:450-453: if `redo_stack` is nonempty, push a deep copy of the
current board onto `undo_stack` and pop the most recent redo entry. -/
def redoState (s : AppState) : AppState :=
  match s.redo_stack with
  | [] => s
  | nxt :: rest =>
      { s with undo_stack := s.board :: s.undo_stack, board := nxt, redo_stack := rest }

/-- main.py:354: `key in (ord('a'), ord('d'), ord('e'), ord('c'), ord('m'),
ord('b'), ord('['), ord(']'))` — the keys that trigger `snapshot()`. -/
def isSnapshotKey : Key → Bool
  | .KeyA | .KeyD | .KeyE | .KeyC | .KeyM | .KeyB | .KeyLBracket | .KeyRBracket => true
  | _ => false

/-- `board.columns[i]` — raises `IndexError` when out of range. -/
def getCol (b : KanbanBoard) (i : Nat) : Except String Column :=
  match b.columns.get? i with
  | some col => .ok col
  | none => .error "IndexError"

/-- Replace column `i` of the board (in-place mutation in Python). -/
def setCol (b : KanbanBoard) (i : Nat) (col : Column) : KanbanBoard :=
  { columns := b.columns.set i col }

/-- main.py:405: `int(priority_str) if priority_str in ("1", "2", "3") else 1`;
`int` is only ever applied to the three literals, so it is inlined. -/
def parsePriority (ps : String) : Nat :=
  if ps = "1" then 1 else if ps = "2" then 2 else if ps = "3" then 3 else 1

/-- main.py:459: `card.priority = card.priority % 3 + 1`. -/
def bumpPriority (p : Nat) : Nat := p % 3 + 1

/-- The display order of main.py:43,
`sorted(column.cards, key=lambda c: c.priority, reverse=True)`: a stable
sort, descending by priority, here in insertion formulation (an earlier card
is placed before any later card of equal priority). -/
def insertDesc (c : Card) : List Card → List Card
  | [] => [c]
  | d :: ds => if d.priority ≤ c.priority then c :: d :: ds else d :: insertDesc c ds

/-- Stable descending-priority sort of a card list (display order). -/
def sortedByPriorityDesc : List Card → List Card
  | [] => []
  | c :: cs => insertDesc c (sortedByPriorityDesc cs)

/-- main.py:324-343: the undo and redo stacks start empty and the initial
cursor `(0, 0)` is clamped against the fresh board. -/
def initialState (b : KanbanBoard) : AppState :=
  if b.columns.isEmpty then
    { board := b, undo_stack := [], redo_stack := [], selected_col := 0, selected_card := 0 }
  else
    let selCol := min 0 (b.columns.length - 1)
    let selCard :=
      match b.columns.get? selCol with
      | some col => if col.cards.isEmpty then 0 else min 0 (col.cards.length - 1)
      | none => 0
    { board := b, undo_stack := [], redo_stack := [], selected_col := selCol,
      selected_card := selCard }

/-- The dispatch on a key after the optional snapshot (main.py:357-461).
Each branch is the literal translation of the corresponding `elif`; a Python
`IndexError` or a propagating load failure becomes `.error`. -/
def handle (k : Key) (inp : Input) (s : AppState) : Except String AppState :=
  match k with
  | .KeyQ => .ok s
  | .KeyRight =>
      if s.selected_col + 1 < s.board.columns.length then
        .ok { s with selected_col := s.selected_col + 1, selected_card := 0 }
      else .ok s
  | .KeyLeft =>
      if 0 < s.selected_col then
        .ok { s with selected_col := s.selected_col - 1, selected_card := 0 }
      else .ok s
  | .KeyDown =>
      match getCol s.board s.selected_col with
      | .error e => .error e
      | .ok col =>
          if s.selected_card + 1 < col.cards.length then
            .ok { s with selected_card := s.selected_card + 1 }
          else .ok s
  | .KeyUp =>
      if 0 < s.selected_card then .ok { s with selected_card := s.selected_card - 1 }
      else .ok s
  | .KeyM =>
      if s.selected_col + 1 < s.board.columns.length then
        match getCol s.board s.selected_col with
        | .error e => .error e
        | .ok srcCol =>
            if srcCol.cards ≠ [] then
              match srcCol.cards.get? s.selected_card with
              | none => .error "IndexError"
              | some card =>
                  let srcCards := srcCol.cards.eraseIdx s.selected_card
                  let b1 := setCol s.board s.selected_col { srcCol with cards := srcCards }
                  match getCol b1 (s.selected_col + 1) with
                  | .error e => .error e
                  | .ok dstCol =>
                      let b2 := setCol b1 (s.selected_col + 1)
                        { dstCol with cards := dstCol.cards ++ [card] }
                      let selCard :=
                        if srcCards.length ≤ s.selected_card then max 0 (srcCards.length - 1)
                        else s.selected_card
                      .ok { s with board := b2, selected_card := selCard,
                                   selected_col := s.selected_col + 1 }
            else .ok s
      else .ok s
  | .KeyB =>
      if 0 < s.selected_col then
        match getCol s.board s.selected_col with
        | .error e => .error e
        | .ok srcCol =>
            if srcCol.cards ≠ [] then
              match srcCol.cards.get? s.selected_card with
              | none => .error "IndexError"
              | some card =>
                  let srcCards := srcCol.cards.eraseIdx s.selected_card
                  let b1 := setCol s.board s.selected_col { srcCol with cards := srcCards }
                  match getCol b1 (s.selected_col - 1) with
                  | .error e => .error e
                  | .ok dstCol =>
                      let b2 := setCol b1 (s.selected_col - 1)
                        { dstCol with cards := dstCol.cards ++ [card] }
                      let selCard :=
                        if srcCards.length ≤ s.selected_card then max 0 (srcCards.length - 1)
                        else s.selected_card
                      .ok { s with board := b2, selected_card := selCard,
                                   selected_col := s.selected_col - 1 }
            else .ok s
      else .ok s
  | .KeyD =>
      match getCol s.board s.selected_col with
      | .error e => .error e
      | .ok col =>
          if col.cards ≠ [] then
            match col.cards.get? s.selected_card with
            | none => .error "IndexError"
            | some _ =>
                let cs := col.cards.eraseIdx s.selected_card
                let selCard :=
                  if cs.length ≤ s.selected_card then max 0 (cs.length - 1)
                  else s.selected_card
                .ok { s with board := setCol s.board s.selected_col { col with cards := cs },
                             selected_card := selCard }
          else .ok s
  | .KeyA =>
      let priority := parsePriority inp.priority_str
      match s.board.add_card 0 inp.title inp.description priority with
      | .error e => .error e
      | .ok b => .ok { s with board := b }
  | .KeyE =>
      match getCol s.board s.selected_col with
      | .error e => .error e
      | .ok col =>
          if col.cards ≠ [] then
            match col.cards.get? s.selected_card with
            | none => .error "IndexError"
            | some card =>
                let t := if inp.new_title ≠ "" then inp.new_title else card.title
                let d := if inp.new_description ≠ "" then inp.new_description
                         else card.description
                let cs := col.cards.set s.selected_card
                  { card with title := t, description := d }
                .ok { s with board := setCol s.board s.selected_col { col with cards := cs } }
          else .ok s
  | .KeyS => .ok s
  | .KeyO =>
      match inp.open_result with
      | none => .ok s
      | some r =>
          match r with
          | .ok b => .ok { s with board := b }
          | .error e => .error e
  | .KeyC =>
      if inp.col_name ≠ "" then
        let b := s.board.add_column inp.col_name
        .ok { s with board := b, selected_col := b.columns.length - 1, selected_card := 0 }
      else .ok s
  | .KeyLBracket =>
      if 0 < s.selected_col then
        match s.board.columns.get? s.selected_col, s.board.columns.get? (s.selected_col - 1) with
        | some cur, some prev =>
            let cols := (s.board.columns.set (s.selected_col - 1) cur).set s.selected_col prev
            .ok { s with board := { columns := cols }, selected_col := s.selected_col - 1 }
        | _, _ => .error "IndexError"
      else .ok s
  | .KeyRBracket =>
      if s.selected_col + 1 < s.board.columns.length then
        match s.board.columns.get? s.selected_col, s.board.columns.get? (s.selected_col + 1) with
        | some cur, some nxt =>
            let cols := (s.board.columns.set (s.selected_col + 1) cur).set s.selected_col nxt
            .ok { s with board := { columns := cols }, selected_col := s.selected_col + 1 }
        | _, _ => .error "IndexError"
      else .ok s
  | .KeyZ => .ok (undoState s)
  | .KeyX => .ok (redoState s)
  | .KeyP =>
      match getCol s.board s.selected_col with
      | .error e => .error e
      | .ok col =>
          if col.cards ≠ [] then
            match col.cards.get? s.selected_card with
            | none => .error "IndexError"
            | some card =>
                let cs := col.cards.set s.selected_card
                  { card with priority := bumpPriority card.priority }
                .ok { s with board := setCol s.board s.selected_col { col with cards := cs } }
          else .ok s
  | .KeyH => .ok s

/-- One iteration of the main event loop on key `k` (main.py:350-461):
the snapshot guard of line 354-355 runs first, then the `elif` dispatch. -/
def step (k : Key) (inp : Input) (s : AppState) : Except String AppState :=
  handle k inp (if isSnapshotKey k then snapshotState s else s)

/-- The Selection Cursor invariant of the spec: `selected_col` lies in
`[0, columns.length-1]` (or is 0 when there are no columns) and
`selected_card` lies in `[0, cards.length-1]` of the selected column (or is
0 when that column is empty). -/
def cursorValid (s : AppState) : Bool :=
  (if s.board.columns.isEmpty then s.selected_col == 0
   else decide (s.selected_col < s.board.columns.length)) &&
  (match s.board.columns.get? s.selected_col with
   | none => s.selected_card == 0
   | some col =>
       if col.cards.isEmpty then s.selected_card == 0
       else decide (s.selected_card < col.cards.length))

deriving instance DecidableEq for Except

/-! ## Concrete fixtures used by witnesses and counterexamples -/

/-- A one-column, no-card board. -/
def boardW : KanbanBoard := ⟨[⟨"To Do", []⟩]⟩

/-- A fresh app state over `boardW` with empty history. -/
def stateW : AppState := ⟨boardW, [], [], 0, 0⟩

/-- A prompt transcript: title `T`, description `D`, invalid priority `9`,
empty edit inputs, empty column name, cancelled picker. -/
def inpW : Input := ⟨"T", "D", "9", "", "", "", none⟩

/-! ## Helper lemmas -/

theorem undoState_of_empty (s : AppState) (h : s.undo_stack = []) : undoState s = s := by
  unfold undoState
  rw [h]

theorem redoState_of_empty (s : AppState) (h : s.redo_stack = []) : redoState s = s := by
  unfold redoState
  rw [h]

/-! ## C1 — history round trip -/

/-- C1: for every board state and every snapshotted mutation, `snapshot` then
the mutation then undo yields a board equal by value to the board before the
mutation; redo immediately afterwards yields the mutated board; undo on an
empty `undo_stack` and redo on an empty `redo_stack` are no-ops that leave the
current board and both stacks unchanged. -/
theorem C1_history_roundtrip (s : AppState) (mutate : KanbanBoard → KanbanBoard) :
    (undoState { snapshotState s with
        board := mutate (snapshotState s).board }).board = s.board ∧
    (redoState (undoState { snapshotState s with
        board := mutate (snapshotState s).board })).board = mutate s.board ∧
    (s.undo_stack = [] → undoState s = s) ∧
    (s.redo_stack = [] → redoState s = s) :=
  ⟨rfl, rfl, undoState_of_empty s, redoState_of_empty s⟩

/-- C1 witness: the round trip and the empty-stack no-ops at a concrete state
(one empty column, empty history) and a concrete mutation (adding a column). -/
theorem C1_history_roundtrip_witness :
    (undoState { snapshotState stateW with
        board := (snapshotState stateW).board.add_column "X" }).board = stateW.board ∧
    (redoState (undoState { snapshotState stateW with
        board := (snapshotState stateW).board.add_column "X" })).board
      = stateW.board.add_column "X" ∧
    undoState stateW = stateW ∧ redoState stateW = stateW := by
  have h := C1_history_roundtrip stateW (fun b => b.add_column "X")
  exact ⟨h.1, h.2.1, h.2.2.1 rfl, h.2.2.2 rfl⟩

/-! ## C4 — save/load round trip -/

theorem loadCard_saveCard (c : Card)
    (h : c.priority = 1 ∨ c.priority = 2 ∨ c.priority = 3) :
    loadCard (saveCard c) = .ok c := by
  simp [loadCard, saveCard, h]

theorem loadCards_map_saveCard (cs : List Card)
    (h : ∀ c ∈ cs, c.priority = 1 ∨ c.priority = 2 ∨ c.priority = 3) :
    loadCards (cs.map saveCard) = .ok cs := by
  induction cs with
  | nil => rfl
  | cons c cs ih =>
      simp only [List.map_cons, loadCards]
      rw [loadCard_saveCard c (h c (by simp)), ih (fun d hd => h d (by simp [hd]))]

theorem loadColumn_saveColumn (col : Column)
    (h : ∀ c ∈ col.cards, c.priority = 1 ∨ c.priority = 2 ∨ c.priority = 3) :
    loadColumn (saveColumn col) = .ok col := by
  simp only [loadColumn, saveColumn]
  rw [loadCards_map_saveCard col.cards h]

theorem loadColumns_map_saveColumn (cols : List Column)
    (h : ∀ col ∈ cols, ∀ c ∈ col.cards, c.priority = 1 ∨ c.priority = 2 ∨ c.priority = 3) :
    loadColumns (cols.map saveColumn) = .ok cols := by
  induction cols with
  | nil => rfl
  | cons col cols ih =>
      simp only [List.map_cons, loadColumns]
      rw [loadColumn_saveColumn col (h col (by simp)),
        ih (fun d hd => h d (by simp [hd]))]

/-- C4: for every board whose stored priorities are legal, `save` followed by
`load` succeeds and returns the identical board: same column names and order,
and in every column the same card titles, descriptions, priorities and order. -/
theorem C4_save_load_roundtrip (b : KanbanBoard) (h : boardPrioritiesValid b) :
    KanbanBoard.load (KanbanBoard.save b) = .ok b := by
  simp only [KanbanBoard.load, KanbanBoard.save]
  rw [loadColumns_map_saveColumn b.columns h]

/-- C4 witness: the round trip on a concrete two-column board. -/
theorem C4_save_load_roundtrip_witness :
    KanbanBoard.load (KanbanBoard.save
      ⟨[⟨"A", [⟨"t1", "d1", 3⟩, ⟨"t2", "", 1⟩]⟩, ⟨"B", []⟩]⟩) =
      .ok ⟨[⟨"A", [⟨"t1", "d1", 3⟩, ⟨"t2", "", 1⟩]⟩, ⟨"B", []⟩]⟩ :=
  C4_save_load_roundtrip _ (by decide)

/-! ## C5 — cyclic priority bump -/

/-- C5: the priority bump of the `p` handler cycles 1→2→3→1, and three bumps
are the identity on every legal priority. -/
theorem C5_priority_bump_cycles (p : Nat) (h : p = 1 ∨ p = 2 ∨ p = 3) :
    bumpPriority 1 = 2 ∧ bumpPriority 2 = 3 ∧ bumpPriority 3 = 1 ∧
    bumpPriority (bumpPriority (bumpPriority p)) = p := by
  rcases h with h | h | h <;> subst h <;> exact ⟨rfl, rfl, rfl, rfl⟩

/-- C5 witness: the cycle and the triple bump at priority 3. -/
theorem C5_priority_bump_cycles_witness :
    bumpPriority 1 = 2 ∧ bumpPriority 2 = 3 ∧ bumpPriority 3 = 1 ∧
    bumpPriority (bumpPriority (bumpPriority 3)) = 3 :=
  C5_priority_bump_cycles 3 (by decide)

/-! ## More helper lemmas: which handlers touch the history stacks -/

/-- Every handler except undo (`z`) and redo (`x`) leaves both history stacks
of its input state unchanged whenever it succeeds. -/
theorem handle_preserves_stacks (k : Key) (inp : Input) (s s' : AppState)
    (hz : k ≠ .KeyZ) (hx : k ≠ .KeyX)
    (h : handle k inp s = .ok s') :
    s'.undo_stack = s.undo_stack ∧ s'.redo_stack = s.redo_stack := by
  cases k
  case KeyZ => exact (hz rfl).elim
  case KeyX => exact (hx rfl).elim
  all_goals (
    unfold handle at h
    dsimp only at h
    repeat' split at h
    all_goals (first
      | (injection h with h2; subst h2; exact ⟨rfl, rfl⟩)
      | (exact Except.noConfusion h)))

/-- The arrow-key handlers only move the cursor: board and stacks unchanged. -/
theorem handle_nav_preserves (k : Key) (inp : Input) (s s' : AppState)
    (hk : k = .KeyUp ∨ k = .KeyDown ∨ k = .KeyLeft ∨ k = .KeyRight)
    (h : handle k inp s = .ok s') :
    s'.board = s.board ∧ s'.undo_stack = s.undo_stack ∧ s'.redo_stack = s.redo_stack := by
  rcases hk with h1 | h1 | h1 | h1 <;> subst h1 <;>
    (unfold handle at h
     dsimp only at h
     repeat' split at h
     all_goals (first
       | (injection h with h2; subst h2; exact ⟨rfl, rfl, rfl⟩)
       | (exact Except.noConfusion h)))

theorem step_eq_of_snapshot_key (k : Key) (inp : Input) (s : AppState)
    (hk : isSnapshotKey k = true) :
    step k inp s = handle k inp (snapshotState s) := by
  unfold step; simp [hk]

theorem step_eq_of_other_key (k : Key) (inp : Input) (s : AppState)
    (hk : isSnapshotKey k = false) :
    step k inp s = handle k inp s := by
  unfold step; simp [hk]

/-! ## C2 — when a snapshot is taken

The spec lists priority change among the snapshotted mutations, but the
snapshot guard of main.py:354 covers only `a d e c m b [ ]`: the `p` handler
mutates the board without pushing a snapshot. -/

/-- A single low-priority card in one column, empty history. -/
def sPbefore : AppState := ⟨⟨[⟨"Col", [⟨"A", "", 1⟩]⟩]⟩, [], [], 0, 0⟩

/-- `sPbefore` after `p` bumped the card's priority to 2: no snapshot taken. -/
def sPafter : AppState := ⟨⟨[⟨"Col", [⟨"A", "", 2⟩]⟩]⟩, [], [], 0, 0⟩

/-- C2 counterexample: pressing `p` (a priority change, which the claim says
is snapshotted) mutates the board while both history stacks stay empty, so no
snapshot was taken immediately before this undoable mutation. -/
theorem C2_counterexample :
    step .KeyP inpW sPbefore = .ok sPafter ∧ sPafter.board ≠ sPbefore.board ∧
    sPafter.undo_stack = [] ∧ sPbefore.undo_stack = [] := by decide

/-- C2 amended: in every step of the event loop a snapshot (board pushed onto
`undo_stack`, `redo_stack` cleared) is taken immediately before the handler
exactly for the keys `a d e c m b [ ]` (card/column add, delete, edit, move,
reorder) and never for navigation-only arrow keys — but, contrary to the
original claim, not for the priority-change key `p`, whose handler mutates
the board leaving both stacks unchanged. -/
theorem C2_amended_snapshot_policy (k : Key) (inp : Input) (s s' : AppState)
    (h : step k inp s = .ok s') :
    (isSnapshotKey k = true →
        s'.undo_stack = s.board :: s.undo_stack ∧ s'.redo_stack = []) ∧
    ((k = .KeyUp ∨ k = .KeyDown ∨ k = .KeyLeft ∨ k = .KeyRight) →
        s'.board = s.board ∧ s'.undo_stack = s.undo_stack ∧ s'.redo_stack = s.redo_stack) ∧
    isSnapshotKey .KeyP = false ∧
    (k = .KeyP → s'.undo_stack = s.undo_stack ∧ s'.redo_stack = s.redo_stack) := by
  refine ⟨?_, ?_, rfl, ?_⟩
  · intro hk
    rw [step_eq_of_snapshot_key k inp s hk] at h
    have hz : k ≠ .KeyZ := by rintro rfl; exact Bool.noConfusion hk
    have hx : k ≠ .KeyX := by rintro rfl; exact Bool.noConfusion hk
    exact handle_preserves_stacks k inp (snapshotState s) s' hz hx h
  · intro hk
    have hsk : isSnapshotKey k = false := by
      rcases hk with h1 | h1 | h1 | h1 <;> subst h1 <;> rfl
    rw [step_eq_of_other_key k inp s hsk] at h
    exact handle_nav_preserves k inp s s' hk h
  · rintro rfl
    rw [step_eq_of_other_key .KeyP inp s rfl] at h
    exact handle_preserves_stacks _ inp s s' (by decide) (by decide) h

/-- `sPbefore` after the delete key: snapshot pushed, card removed. -/
def sDafter : AppState := ⟨⟨[⟨"Col", []⟩]⟩, [⟨[⟨"Col", [⟨"A", "", 1⟩]⟩]⟩], [], 0, 0⟩

/-- C2 amended witness: the snapshot policy at the concrete delete key. -/
theorem C2_amended_snapshot_policy_witness :
    sDafter.undo_stack = sPbefore.board :: sPbefore.undo_stack ∧ sDafter.redo_stack = [] :=
  (C2_amended_snapshot_policy .KeyD inpW sPbefore sDafter (by decide)).1 rfl

/-! ## C3 — a new snapshot clears the redo stack -/

/-- C3: after an undo followed by a snapshotted mutation (the add-card key),
the redo stack is empty, so a subsequent redo is a no-op that changes neither
the board nor the stacks and raises no error. -/
theorem C3_new_snapshot_clears_redo (s : AppState) (inp : Input) (s' : AppState)
    (h : step .KeyA inp (undoState s) = .ok s') :
    s'.redo_stack = [] ∧ redoState s' = s' ∧ step .KeyX inp s' = .ok s' := by
  have hps := handle_preserves_stacks .KeyA inp (snapshotState (undoState s)) s'
    (by decide) (by decide) h
  have hr : s'.redo_stack = [] := hps.2
  refine ⟨hr, redoState_of_empty s' hr, ?_⟩
  have hx : step .KeyX inp s' = .ok (redoState s') := rfl
  rw [hx, redoState_of_empty s' hr]

/-- `stateW` after the add-card key with the `inpW` prompts. -/
def s3w : AppState := ⟨⟨[⟨"To Do", [⟨"T", "D", 1⟩]⟩]⟩, [boardW], [], 0, 0⟩

/-- C3 witness: redo is a no-op after undo-then-add at a concrete state. -/
theorem C3_new_snapshot_clears_redo_witness :
    s3w.redo_stack = [] ∧ redoState s3w = s3w ∧ step .KeyX inpW s3w = .ok s3w :=
  C3_new_snapshot_clears_redo stateW inpW s3w (by decide)

/-! ## C6 — the cursor invariant is not enforced after a card move

Moving the last card of a column into a shorter column re-clamps the cursor
against the *source* column and then selects the destination column, leaving
`selected_card` out of range there; a subsequent edit raises `IndexError`. -/

/-- Three cards in the first column, an empty second column, cursor on the
third card. -/
def s6before : AppState :=
  ⟨⟨[⟨"A", [⟨"c1", "", 1⟩, ⟨"c2", "", 1⟩, ⟨"c3", "", 1⟩]⟩, ⟨"B", []⟩]⟩, [], [], 0, 2⟩

/-- `s6before` after the move-right key: `c3` moved to column `B`, cursor at
`(1, 1)` although column `B` holds a single card. -/
def s6after : AppState :=
  ⟨⟨[⟨"A", [⟨"c1", "", 1⟩, ⟨"c2", "", 1⟩]⟩, ⟨"B", [⟨"c3", "", 1⟩]⟩]⟩,
   [⟨[⟨"A", [⟨"c1", "", 1⟩, ⟨"c2", "", 1⟩, ⟨"c3", "", 1⟩]⟩, ⟨"B", []⟩]⟩], [], 1, 1⟩

/-- C6 is violated: from a state satisfying the cursor invariant, the move
key yields a state whose `selected_card` exceeds the selected column's card
count, and the edit key then fails with `IndexError` instead of acting on a
card. -/
theorem C6_cursor_invariant_fails :
    cursorValid s6before = true ∧
    step .KeyM inpW s6before = .ok s6after ∧
    cursorValid s6after = false ∧
    step .KeyE inpW s6after = .error "IndexError" := by decide

/-! ## C7 — operations act on the storage index, not the displayed one

`draw_board` highlights position `selected_card` of the priority-sorted view,
but every handler indexes the raw insertion-ordered card list with the same
number; no mapping from displayed position to storage index exists. -/

/-- One column whose insertion order is `[low, high]`; the sorted display
shows `high` first, and the cursor is at displayed position 0. -/
def s7before : AppState := ⟨⟨[⟨"Col", [⟨"low", "", 1⟩, ⟨"high", "", 3⟩]⟩]⟩, [], [], 0, 0⟩

/-- `s7before` after the delete key: storage index 0 (`low`) was removed. -/
def s7after : AppState :=
  ⟨⟨[⟨"Col", [⟨"high", "", 3⟩]⟩]⟩, [⟨[⟨"Col", [⟨"low", "", 1⟩, ⟨"high", "", 3⟩]⟩]⟩], [], 0, 0⟩

/-- C7 is violated: the card displayed as selected (position 0 of the sorted
view) is `high`, yet the delete handler removes storage index 0, which is
`low` — the highlighted card survives and a different card is deleted, so the
displayed position was never mapped back to a storage index. -/
theorem C7_acts_on_unmapped_storage_index :
    (sortedByPriorityDesc [⟨"low", "", 1⟩, ⟨"high", "", 3⟩]).get? 0 = some ⟨"high", "", 3⟩ ∧
    step .KeyD inpW s7before = .ok s7after ∧
    s7after.board.columns = [⟨"Col", [⟨"high", "", 3⟩]⟩] := by decide

/-! ## C8 — a failed in-session load is not contained

main.py:420-424 runs `board = KanbanBoard(); board.load(file_path)` with no
exception handler: the board binding is replaced by a fresh empty board
before the load is attempted, and a load failure propagates out of the main
loop instead of continuing with the previous board. -/

/-- An open action whose picked file fails to load. -/
def inpOpenFail : Input := ⟨"", "", "", "", "", "", some (.error "FormatError")⟩

/-- C8 is violated: a failing load during the `o` action makes the whole loop
step fail (the exception escapes `main`), rather than leaving the session in
its previous state with the old in-memory board. -/
theorem C8_failed_load_not_contained :
    step .KeyO inpOpenFail sPbefore = .error "FormatError" ∧
    step .KeyO inpOpenFail sPbefore ≠ .ok sPbefore := by decide

/-! ## C9 — history survives an in-session board replacement -/

/-- The board delivered by a successful in-session load. -/
def newBoard : KanbanBoard := ⟨[⟨"N", []⟩]⟩

/-- An open action whose picked file loads successfully as `newBoard`. -/
def inpOpenOk : Input := ⟨"", "", "", "", "", "", some (.ok newBoard)⟩

/-- A state holding one snapshot (of an empty board) on the undo stack. -/
def s9before : AppState := ⟨boardW, [⟨[]⟩], [], 0, 0⟩

/-- `s9before` after a successful load: board replaced, stack kept. -/
def s9after : AppState := ⟨newBoard, [⟨[]⟩], [], 0, 0⟩

/-- C9 counterexample: immediately after an in-session fresh load wholly
replaces the board, the undo stack is *not* empty — the old board's history
is carried across the replacement. -/
theorem C9_counterexample :
    step .KeyO inpOpenOk s9before = .ok s9after ∧ s9after.board = newBoard ∧
    s9after.undo_stack ≠ [] := by decide

/-- C9 amended: both stacks are empty right after the *initial* board load
(they are created empty and the initial cursor clamp touches neither), but an
in-session load (`o` key) only replaces the board and carries both stacks
over unchanged — history is not cleared at a board replacement. -/
theorem C9_amended_history_across_load (s : AppState) (inp : Input) (b : KanbanBoard)
    (hi : inp.open_result = some (.ok b)) (b0 : KanbanBoard) :
    step .KeyO inp s = .ok { s with board := b } ∧
    (initialState b0).undo_stack = [] ∧ (initialState b0).redo_stack = [] := by
  refine ⟨?_, ?_, ?_⟩
  · have hs : step .KeyO inp s = handle .KeyO inp s := rfl
    rw [hs]
    unfold handle
    rw [hi]
  · unfold initialState
    split <;> rfl
  · unfold initialState
    split <;> rfl

/-- C9 amended witness: the load step and the initial stacks at a concrete
board. -/
theorem C9_amended_history_across_load_witness :
    step .KeyO inpOpenOk stateW = .ok { stateW with board := newBoard } ∧
    (initialState newBoard).undo_stack = [] ∧ (initialState newBoard).redo_stack = [] :=
  C9_amended_history_across_load stateW inpOpenOk newBoard rfl newBoard

/-! ## C10 — add-card always targets column 0 -/

/-- C10: whatever column is selected, the add-card key appends the new card
to column index 0 (only column 0 of the column list is changed, the cursor
is untouched), and an entered priority string other than `"1"`, `"2"`, `"3"`
yields priority 1. -/
theorem C10_add_card_goes_to_first_column (s : AppState) (inp : Input) (col0 : Column)
    (h0 : s.board.columns.get? 0 = some col0) (s' : AppState)
    (h : step .KeyA inp s = .ok s') :
    s'.board.columns = s.board.columns.set 0
      { col0 with cards := col0.cards ++
          [⟨inp.title, inp.description, parsePriority inp.priority_str⟩] } ∧
    s'.selected_col = s.selected_col ∧ s'.selected_card = s.selected_card ∧
    s'.undo_stack = s.board :: s.undo_stack ∧
    (inp.priority_str ≠ "1" ∧ inp.priority_str ≠ "2" ∧ inp.priority_str ≠ "3" →
      parsePriority inp.priority_str = 1) := by
  have h' : handle .KeyA inp (snapshotState s) = .ok s' := h
  unfold handle at h'
  dsimp only [snapshotState] at h'
  unfold KanbanBoard.add_card at h'
  rw [h0] at h'
  injection h' with h2
  subst h2
  refine ⟨rfl, rfl, rfl, rfl, ?_⟩
  rintro ⟨h1, h2, h3⟩
  unfold parsePriority
  rw [if_neg h1, if_neg h2, if_neg h3]

/-- C10 witness: adding with invalid priority string `"9"` at a one-column
board. -/
theorem C10_add_card_goes_to_first_column_witness :
    s3w.board.columns = stateW.board.columns.set 0
      { name := "To Do", cards := [] ++
          [⟨inpW.title, inpW.description, parsePriority inpW.priority_str⟩] } ∧
    s3w.selected_col = stateW.selected_col ∧ s3w.selected_card = stateW.selected_card ∧
    s3w.undo_stack = stateW.board :: stateW.undo_stack ∧
    parsePriority "9" = 1 := by
  have h := C10_add_card_goes_to_first_column stateW inpW ⟨"To Do", []⟩ rfl s3w (by decide)
  exact ⟨h.1, h.2.1, h.2.2.1, h.2.2.2.1, h.2.2.2.2 (by decide)⟩

end TermiKanban
